import Mathlib

set_option autoImplicit false

/-!
Shallow embedding of the VapeWatch evidence-report pipeline
(lambdas `ingest`, `persist`, `redaction`, `officer_admin_portal`).

Python values are modelled as follows: strings are `String`; numbers that the
code funnels through `float`/`Decimal` are `ℚ` (with dedicated constructors for
the non-finite / non-numeric cases the code tests for); `None`-or-missing dict
entries are `Option`; dicts with a fixed key set are structures whose `Option`
fields conflate a missing key with a `None` value, exactly as the Python
`dict.get` call does.  Calls to external libraries (Pillow encode, Rekognition,
Cognito, DynamoDB scan, base64+json decoding) are threaded in as function
parameters; a `none` result models a raised-and-caught exception.
-/

namespace VapeWatch

/-- Rounding a rational to `p` decimal places.  This models both the Python
`round(x, p)` call and the `f"{x:.pf}"` formatting used by `_safe_decimal`
(the half-even tie behaviour of float formatting is below the abstraction
level of the specification claims, which only say "rounded to `p` decimals"). -/
def roundTo (p : Nat) (q : ℚ) : ℚ :=
  (round (q * (10 : ℚ) ^ p) : ℤ) / (10 : ℚ) ^ p

/-- Python `int()` truncates toward zero. -/
def pyInt (q : ℚ) : Int :=
  if 0 ≤ q then ⌊q⌋ else ⌈q⌉

/-- Python `value.strip()`: drop leading and trailing whitespace characters.
Defined on the character list so that it evaluates inside the kernel. -/
def pyStrip (s : String) : String :=
  ⟨((s.data.dropWhile Char.isWhitespace).reverse.dropWhile Char.isWhitespace).reverse⟩

/-- Python `value[:n]`: the first `n` code points. -/
def pyTake (n : Nat) (s : String) : String :=
  ⟨s.data.take n⟩

/-- Model of `_clean_string(value, max_length)` from `persist/main.py`:
`None` stays `None`; otherwise strip, treat the empty result as absent,
and truncate to `max_length` code points.  Non-string inputs are coerced with
`str()` before the call sites modelled here, so the argument is the already
stringified value. -/
def clean_string (value : Option String) (maxLength : Option Nat) : Option String :=
  match value with
  | none => none
  | some s =>
      let t := pyStrip s
      if t = "" then none
      else
        match maxLength with
        | none => some t
        | some m => some (pyTake m t)

/-- Python truthiness of an optional string: `None` and `""` are falsy. -/
def truthy : Option String → Bool
  | none => false
  | some s => s ≠ ""

/-- Python `a or b` on optional strings: keep `a` when truthy, else `b`. -/
def pyOr (a b : Option String) : Option String :=
  if truthy a then a else b

/-! ## Ingest sanitizer (`src/lambdas/ingest/main.py`) -/

/-- Raw value handed to `float()` inside `_coerce_coordinate`:
either absent / not a number-like value (a raised `TypeError`/`ValueError`),
a non-finite float, or a finite number with exact value `q`. -/
inductive RawCoord where
  | absent
  | nonNumeric
  | nonFinite
  | num (q : ℚ)
deriving DecidableEq

/-- Model of `_coerce_coordinate(value, minimum, maximum)`:
reject non-numbers and non-finite floats, reject out-of-range values,
otherwise round to 6 decimal places. -/
def coerce_coordinate (value : RawCoord) (minimum maximum : ℚ) : Option ℚ :=
  match value with
  | .num q => if q < minimum ∨ q > maximum then none else some (roundTo 6 q)
  | _ => none

/-- The sanitized location dict produced by `_sanitize_location`.
`latitude` and `longitude` are mandatory by construction: the source either
returns `None` for the whole location or a dict holding both. -/
structure SanitizedLocation where
  latitude : ℚ
  longitude : ℚ
  accuracy_m : Option ℚ
  captured_at : Option String
deriving DecidableEq

/-- Raw `location` value of a submission: either not a dict at all, or a dict
whose coordinate-like entries are `RawCoord`s and whose `captured_at` is a
string (`none` models a missing or non-string value, which the `isinstance(captured_at, str)` check of the source rejects). -/
inductive RawLocation where
  | notDict
  | dict (latitude longitude accuracy_m : RawCoord) (captured_at : Option String)

/-- Default of the `MAX_LOCATION_ACCURACY_METERS` environment knob. -/
def MAX_LOCATION_ACCURACY_METERS : ℚ := 10000

/-- The accuracy branch of `_sanitize_location`: coerce to float
(failure or non-finite means absent), treat values `≤ 0` as absent, clamp to
the configured maximum, round to 2 decimals. -/
def sanitize_accuracy (accuracy_m : RawCoord) : Option ℚ :=
  match accuracy_m with
  | .num a =>
      if a ≤ 0 then none
      else if a > MAX_LOCATION_ACCURACY_METERS then
        some (roundTo 2 MAX_LOCATION_ACCURACY_METERS)
      else some (roundTo 2 a)
  | _ => none

/-- The `captured_at` branch of `_sanitize_location`: keep a nonempty string,
truncated to 40 code points. -/
def sanitize_captured_at (captured_at : Option String) : Option String :=
  match captured_at with
  | some s => if s = "" then none else some (pyTake 40 s)
  | none => none

/-- Model of `_sanitize_location(location)`: `None` unless the value is a dict
whose latitude and longitude both coerce within `[-90,90]` and `[-180,180]`;
on success both coordinates are present (never a partial location), with
optional accuracy and capture timestamp. -/
def sanitize_location (location : RawLocation) : Option SanitizedLocation :=
  match location with
  | .notDict => none
  | .dict latRaw lonRaw accRaw capRaw =>
      match coerce_coordinate latRaw (-90) 90, coerce_coordinate lonRaw (-180) 180 with
      | some lat, some lon =>
          some { latitude := lat, longitude := lon,
                 accuracy_m := sanitize_accuracy accRaw,
                 captured_at := sanitize_captured_at capRaw }
      | _, _ => none

/-! ## Image codec (`_compress_photo` in `src/lambdas/ingest/main.py`) -/

/-- The format Pillow reports for a decoded image (`img.format`); `other`
covers every non-JPEG/PNG format, including the empty string the source
substitutes for `None`. -/
inductive ImageFormat where
  | jpeg
  | png
  | other (name : String)
deriving DecidableEq

/-- Default of the `IMAGE_minCompressionRatio` environment knob. -/
def minCompressionRatio : ℚ := 95 / 100

/-- Model of `_compress_photo(binary, content_type)`.
`pillow` is the `Image is not None` import guard; `opened` is the result of
`Image.open` (`none` models a raised exception, `some fmt` a decoded image of
that format); `save fmt` is the byte string produced by `img.save` with the
clamped quality / compression settings for that format (`none` models an
encode failure, which the surrounding `try` also catches).  The recompressed
bytes are kept only when strictly smaller than `len(binary) * 0.95`. -/
def compress_photo (pillow : Bool) (opened : Option ImageFormat)
    (save : ImageFormat → Option (List Nat))
    (binary : List Nat) (content_type : String) : List Nat × String :=
  if !pillow || binary = [] then (binary, content_type)
  else
    match opened with
    | none => (binary, content_type)
    | some fmt =>
        if fmt ≠ .jpeg ∧ fmt ≠ .png then (binary, content_type)
        else
          match save fmt with
          | none => (binary, content_type)
          | some compressed =>
              let newContentType := if fmt = .jpeg then "image/jpeg" else "image/png"
              if (compressed.length : ℚ) ≥ (binary.length : ℚ) * minCompressionRatio then
                (binary, content_type)
              else (compressed, newContentType)

/-! ## Redactor (`_blur_faces` in `src/lambdas/redaction/main.py`) -/

/-- Encoded image bytes together with the container format they are encoded
in.  The format tag tracks what `_blur_faces` would find if it decoded the
bytes; it models "these bytes are a PNG file", not a separate runtime field. -/
structure EncodedImage where
  format : ImageFormat
  data : List Nat
deriving DecidableEq

/-- One Rekognition face bounding box (normalized `[0,1]` coordinates, with
the `.get(key, 0)` defaults already applied). -/
structure FaceBox where
  left : ℚ
  top : ℚ
  width : ℚ
  height : ℚ

/-- Model of `_blur_faces(image_bytes)`.  `Pix` is the opaque in-memory PIL
image; `opened` models `Image.open(...).convert("RGB")`, `size` its
`.size`, `detect_faces` the Rekognition call on the raw bytes,
`crop_blur_paste` one crop / Gaussian-blur / paste round trip at an absolute
pixel rectangle, and `encode_jpeg` the final `save(buffer, format="JPEG")`.
With zero detected faces the original bytes are returned untouched; otherwise
every non-degenerate box is blurred and the edited image is re-encoded as
JPEG. -/
def blur_faces {Pix : Type}
    (opened : EncodedImage → Pix)
    (size : Pix → Nat × Nat)
    (detect_faces : EncodedImage → List FaceBox)
    (crop_blur_paste : Pix → Int × Int × Int × Int → Pix)
    (encode_jpeg : Pix → List Nat)
    (image_bytes : EncodedImage) : EncodedImage :=
  let image := opened image_bytes
  let wh := size image
  let faces := detect_faces image_bytes
  if faces.isEmpty then image_bytes
  else
    let edited := faces.foldl (fun acc face =>
      let l := pyInt (face.left * wh.1)
      let t := pyInt (face.top * wh.2)
      let w := pyInt (face.width * wh.1)
      let h := pyInt (face.height * wh.2)
      if w ≤ 0 ∨ h ≤ 0 then acc
      else crop_blur_paste acc (l, t, w, h)) image
    { format := .jpeg, data := encode_jpeg edited }

/-! ## Persistor (`src/lambdas/persist/main.py`) -/

/-- A value fed to `_safe_decimal`, classified by the `isinstance` ladder of
the source: Python `None`; an existing `Decimal`; a finite float with exact
value `q`; a non-finite float; an `int` (this also covers `bool`, a subclass
of `int`); a string; or any other object, for which the source falls back to
`Decimal(str(value))` — modelled by the stringified representation. -/
inductive DecimalInput where
  | pyNone
  | decimal (q : ℚ)
  | float (q : ℚ)
  | floatNonFinite
  | int (n : ℤ)
  | str (s : String)
  | other (s : String)
deriving DecidableEq

/-- Model of `_safe_decimal(value, precision)`.  `dparse s` stands for
`Decimal(s)` on a string: `some q` when the literal parses to the finite
decimal `q`, `none` when it raises `InvalidOperation` (non-finite decimal
literals such as `"NaN"`, which the durable store would reject anyway, are
modelled as unparseable).  For a finite float, `precision` selects between
the `f"{value:.pf}"` rounding and the exact `Decimal(str(value))` path. -/
def safe_decimal (dparse : String → Option ℚ) (value : DecimalInput)
    (precision : Option Nat) : Option ℚ :=
  match value with
  | .pyNone => none
  | .decimal q => some q
  | .float q =>
      match precision with
      | some p => some (roundTo p q)
      | none => some q
  | .floatNonFinite => none
  | .int n => some (n : ℚ)
  | .str s => if pyStrip s = "" then none else dparse s
  | .other s => dparse s

/-- Raw `bbox` dict of one detection entry. -/
structure RawBbox where
  x1 : DecimalInput
  y1 : DecimalInput
  x2 : DecimalInput
  y2 : DecimalInput

/-- One raw detection entry (a dict).  `class_name` is the stringified value
handed to `_clean_string`; `class_id` is the result of the `int(...)`
coercion attempt (`none` models a raised `TypeError`/`ValueError`); `bbox` is
present only when the raw value is a dict. -/
structure RawDetection where
  class_name : Option String
  class_id : Option Int
  confidence : DecimalInput
  bbox : Option RawBbox

/-- One sanitized detection as stored by `_prepare_detections`; an `Option`
field models presence of the corresponding dict key. -/
structure Detection where
  class_name : Option String
  class_id : Option Int
  confidence : Option ℚ
  bbox : Option (List (String × ℚ))
deriving DecidableEq

/-- The detection dict that has accumulated no usable field. -/
def Detection.emptyEntry : Detection :=
  { class_name := none, class_id := none, confidence := none, bbox := none }

/-- The `source` argument of `_prepare_detections`: a bare list, a dict whose
`detections` key holds a list, a dict without such a list, or any other
value.  List elements that are not dicts are modelled as `none`. -/
inductive DetectionSource where
  | list (entries : List (Option RawDetection))
  | dictWithList (entries : List (Option RawDetection))
  | dictWithoutList
  | other

/-- The `_MAX_STORED_DETECTIONS` module constant. -/
def MAX_STORED_DETECTIONS : Nat := 25

/-- The per-entry body of `_prepare_detections`: clean the label, keep the
`int`-coerced class id, convert confidence at 4-decimal precision, and keep
exactly the bbox coordinate keys that parse as numbers. -/
def prepare_detection_entry (dparse : String → Option ℚ) (entry : RawDetection) :
    Detection :=
  let bboxPayload : Option (List (String × ℚ)) :=
    match entry.bbox with
    | none => none
    | some b =>
        let pairs := [("x1", safe_decimal dparse b.x1 none),
                      ("y1", safe_decimal dparse b.y1 none),
                      ("x2", safe_decimal dparse b.x2 none),
                      ("y2", safe_decimal dparse b.y2 none)]
        let payload := pairs.filterMap (fun p => p.2.map (fun q => (p.1, q)))
        if payload = [] then none else some payload
  { class_name := clean_string entry.class_name (some 120)
    class_id := entry.class_id
    confidence := safe_decimal dparse entry.confidence (some 4)
    bbox := bboxPayload }

/-- Model of `_prepare_detections(source)`: normalize the two accepted shapes
to a list, cap at 25 entries, skip non-dict entries, sanitize each entry
field-by-field, drop entries with zero usable fields, and return `None` for
a non-list source or an empty sanitized list. -/
def prepare_detections (dparse : String → Option ℚ) (source : DetectionSource) :
    Option (List Detection) :=
  let fromEntries := fun (entries : List (Option RawDetection)) =>
    let sanitized := (entries.take MAX_STORED_DETECTIONS).filterMap (fun e =>
      match e with
      | none => none
      | some raw =>
          let d := prepare_detection_entry dparse raw
          if d = Detection.emptyEntry then none else some d)
    if sanitized = [] then none else some sanitized
  match source with
  | .list entries => fromEntries entries
  | .dictWithList entries => fromEntries entries
  | .dictWithoutList => none
  | .other => none

/-- The fields of the Persistor input event that the modelled claims touch.
`request_id`, `status`, `notes`, `content_type` and `filename` are the
stringified values the source hands to `_clean_string`; `detections` is the
already-selected `event.get("detections") or raw_inference.get("result")`
fallback value handed to `_prepare_detections`. -/
structure PersistEvent where
  request_id : Option String
  status : Option String
  notes : Option String
  content_type : Option String
  filename : Option String
  detections : DetectionSource

/-- The scalar part of the DynamoDB item assembled by `persist.lambda_handler`.
`report_id`, `submitted_at` and `status` are always present; the `Option`
fields model the `_strip_none` pass that removes absent attributes. -/
structure ReportItem where
  report_id : String
  submitted_at : String
  status : String
  notes : Option String
  content_type : Option String
  filename : Option String
  detections : Option (List Detection)
deriving DecidableEq

/-- Model of the item construction in `persist.lambda_handler`:
`report_id` falls back to a fresh UUID (`freshUuid`) when the cleaned
`request_id` is absent, `submitted_at` is the write-time timestamp (`now`),
and `status` falls back to `"PENDING_REVIEW"` when the cleaned event status
is absent. -/
def persist_item (dparse : String → Option ℚ) (event : PersistEvent)
    (freshUuid now : String) : ReportItem :=
  { report_id := (clean_string event.request_id none).getD freshUuid
    submitted_at := now
    status := (clean_string event.status (some 64)).getD "PENDING_REVIEW"
    notes := clean_string event.notes (some 2000)
    content_type := clean_string event.content_type (some 255)
    filename := clean_string event.filename (some 255)
    detections := prepare_detections dparse event.detections }

/-! ## Officer admin portal (`src/lambdas/officer_admin_portal/main.py`) -/

/-- An officer dict with its four possible keys; an `Option` field conflates
a missing key with a `None` value, as `officer.get(...)` does in the source. -/
structure Officer where
  email : Option String
  name : Option String
  sub : Option String
  username : Option String
deriving DecidableEq

/-- A `_officer_cache` entry: the sanitized updates stored for a username.
Every stored value is truthy by construction of the source. -/
structure OfficerUpdates where
  email : Option String
  name : Option String
  username : Option String
deriving DecidableEq

/-- Python truthiness of an updates dict: falsy iff it holds no key. -/
def OfficerUpdates.isEmptyDict (u : OfficerUpdates) : Bool :=
  !(truthy u.email) && !(truthy u.name) && !(truthy u.username)

/-- The part of a successful `cognito.admin_get_user` response the source
reads: the `UserAttributes` name/value pairs (modelled as an association
list queried by first match) and the top-level `Username`. -/
structure CognitoUser where
  attributes : List (String × String)
  username : Option String

/-- Applying `officer.update({k: v for k, v in updates.items() if v})`:
each truthy update value overwrites the corresponding officer field; `sub` is never
updated because neither the cache nor the lookup path ever stores one. -/
def Officer.applyUpdates (o : Officer) (u : OfficerUpdates) : Officer :=
  { email := if truthy u.email then u.email else o.email
    name := if truthy u.name then u.name else o.name
    sub := o.sub
    username := if truthy u.username then u.username else o.username }

/-- The final `if officer.get("username") == officer.get("sub"): pop` step of
`_enrich_officer_details` (reached only on the successful-lookup path). -/
def Officer.popUsernameIfSub (o : Officer) : Officer :=
  if o.username = o.sub then { o with username := none } else o

/-- The `updates` dict assembled on the successful-lookup path of
`_enrich_officer_details`: a field is proposed only when the own value of the officer
is falsy, drawn from the response attributes with Python `or`
fallbacks; a username is proposed only when the response carries one and the
officer does not. -/
def directory_updates (officer : Officer) (resp : CognitoUser) : OfficerUpdates :=
  let usernameValue := resp.username
  let attrs := resp.attributes
  { email :=
      if truthy officer.email then none
      else pyOr (attrs.lookup "email") (attrs.lookup "custom:email")
    name :=
      if truthy officer.name then none
      else pyOr (attrs.lookup "name")
            (pyOr (attrs.lookup "preferred_username")
              (pyOr (attrs.lookup "given_name")
                (pyOr (attrs.lookup "family_name") usernameValue)))
    username :=
      if truthy usernameValue && !(truthy officer.username) then usernameValue
      else none }

/-- The `sanitized = {k: v for k, v in updates.items() if v}` comprehension of
`_enrich_officer_details`. -/
def sanitize_updates (u : OfficerUpdates) : OfficerUpdates :=
  { email := if truthy u.email then u.email else none
    name := if truthy u.name then u.name else none
    username := if truthy u.username then u.username else none }

/-- Dict assignment `_officer_cache[username] = sanitized` on the
association-list model of the cache. -/
def cacheInsert (cache : List (String × OfficerUpdates)) (k : String)
    (v : OfficerUpdates) : List (String × OfficerUpdates) :=
  (k, v) :: cache.filter (fun p => p.1 ≠ k)

/-- Model of `_enrich_officer_details(officer)`.  `enabled` is the
`_COGNITO_USER_POOL_ID and cognito` configuration guard; `admin_get_user u`
is `none` when the Cognito call raises (including `UserNotFoundException`).
Returns the possibly-updated officer together with the possibly-updated
process cache.  The `if not officer` guard of the source returns an empty dict
unchanged; in this four-key model the all-absent officer likewise falls
through to the `not username` early return, which also leaves it
unchanged. -/
def enrich_officer_details (enabled : Bool)
    (admin_get_user : String → Option CognitoUser)
    (cache : List (String × OfficerUpdates)) (officer : Officer) :
    Officer × List (String × OfficerUpdates) :=
  if !enabled then (officer, cache)
  else
    let name := officer.name
    let email := officer.email
    let sub := officer.sub
    let username := pyOr officer.username sub
    if (truthy name && truthy email) || !(truthy username) then (officer, cache)
    else
      let uname := username.getD ""
      let cachedHit : Option OfficerUpdates :=
        match cache.lookup uname with
        | some c => if c.isEmptyDict then none else some c
        | none => none
      match cachedHit with
      | some cached => (officer.applyUpdates cached, cache)
      | none =>
          match admin_get_user uname with
          | none => (officer, cache)
          | some resp =>
              let sanitized := sanitize_updates (directory_updates officer resp)
              if sanitized.isEmptyDict then
                (officer.popUsernameIfSub, cache)
              else
                ((officer.applyUpdates sanitized).popUsernameIfSub,
                  cacheInsert cache uname sanitized)

/-- The JWT claims `_extract_officer` reads from the request authorizer;
each `Option` field conflates a missing claim with a `None` value. -/
structure JwtClaims where
  email : Option String
  custom_email : Option String
  preferred_username : Option String
  name : Option String
  given_name : Option String
  cognito_username : Option String
  sub : Option String

/-- The claims object of a request whose authorizer supplies no officer
fields at all. -/
def JwtClaims.emptyClaims : JwtClaims :=
  { email := none, custom_email := none, preferred_username := none,
    name := none, given_name := none, cognito_username := none, sub := none }

/-- Model of `_extract_officer(event)`: assemble the officer dict from the
claims with Python `or` fallbacks, then enrich it. -/
def extract_officer (enabled : Bool) (admin_get_user : String → Option CognitoUser)
    (cache : List (String × OfficerUpdates)) (claims : JwtClaims) :
    Officer × List (String × OfficerUpdates) :=
  let officer : Officer :=
    { email := pyOr claims.email (pyOr claims.custom_email claims.preferred_username)
      name := pyOr claims.name
                (pyOr claims.preferred_username
                  (pyOr claims.given_name claims.cognito_username))
      sub := claims.sub
      username := pyOr claims.cognito_username claims.sub }
  enrich_officer_details enabled admin_get_user cache officer

/-- Model of `_remove_none_values`: keep the truthy fields of the officer
dict, in its insertion order `email, name, sub, username`. -/
def remove_none_values (o : Officer) : List (String × String) :=
  (if truthy o.email then [("email", o.email.getD "")] else []) ++
  (if truthy o.name then [("name", o.name.getD "")] else []) ++
  (if truthy o.sub then [("sub", o.sub.getD "")] else []) ++
  (if truthy o.username then [("username", o.username.getD "")] else [])

/-- The officer map `_submit_audit` writes into the appended audit entry:
the extracted officer with falsy fields removed, replaced by
`{"sub": "unknown"}` when nothing remains. -/
def submit_audit_officer (enabled : Bool)
    (admin_get_user : String → Option CognitoUser)
    (cache : List (String × OfficerUpdates)) (claims : JwtClaims) :
    List (String × String) :=
  let officer := remove_none_values (extract_officer enabled admin_get_user cache claims).1
  if officer = [] then [("sub", "unknown")] else officer

/-- Model of `_sanitize_limit(raw, default, minimum, maximum)`; `raw` is the
result of the `int(raw)` attempt (`none` models a raised exception, also
covering a missing parameter). -/
def sanitize_limit (raw : Option Int) (d minimum maximum : Int) : Int :=
  match raw with
  | none => d
  | some v => if v < minimum then minimum else if v > maximum then maximum else v

/-- Model of `_sanitize_offset(raw, default)`. -/
def sanitize_offset (raw : Option Int) (d : Int) : Int :=
  match raw with
  | none => d
  | some v => if v < 0 then d else v

/-- The pagination core of `_get_report_history`: reverse the stored history
(newest first), clamp the start offset to the total, take the
`ordered[start:start+limit]` slice, and emit `start+limit` as the next
cursor exactly when entries remain beyond the slice. -/
def get_history_slice {α : Type} (history : List α) (limit offset : Nat) :
    List α × Option Nat :=
  let ordered := history.reverse
  let total := ordered.length
  let start := if offset < total then offset else total
  let stop := start + limit
  let sliceItems := (ordered.drop start).take (stop - start)
  let nextCursor := if stop < total then some stop else none
  (sliceItems, nextCursor)

/-- The `_get_report_history` handler after the report has been loaded:
sanitize `limit` (default 10, clamped to `[1,100]`) and the numeric `cursor`
offset (default 0), then slice. -/
def get_report_history {α : Type} (history : List α)
    (limitRaw cursorRaw : Option Int) : List α × Option Nat :=
  let limit := sanitize_limit limitRaw 10 1 100
  let offset := sanitize_offset cursorRaw 0
  get_history_slice history limit.toNat offset.toNat

/-- Model of `_decode_cursor(raw)`.  `b64JsonDict s` stands for the composed
`urlsafe_b64decode` / `utf-8` / `json.loads` / `isinstance(dict)` /
stringify-items pipeline: `some` a key map when `s` is valid base64 of a
JSON object, `none` when any step raises or the payload is not an object. -/
def decode_cursor (b64JsonDict : String → Option (List (String × String)))
    (raw : Option String) : Option (List (String × String)) :=
  match raw with
  | none => none
  | some s => if s = "" then none else b64JsonDict s

/-- One DynamoDB scan page: the fetched items and the native pagination
token, when the scan stopped early. -/
structure ScanPage (α : Type) where
  items : List α
  lastEvaluatedKey : Option (List (String × String))

/-- The shape of the `_json_response` payload `_list_reports` produces. -/
structure ListResponse (α : Type) where
  statusCode : Nat
  items : List α
  count : Nat
  nextCursor : Option String

/-- The stable Python `items.sort(key=lambda x: x.get("submitted_at", ""),
reverse=True)`. -/
def sortBySubmittedAtDesc {α : Type} (key : α → String) (items : List α) :
    List α :=
  items.mergeSort (fun a b => decide (key b ≤ key a))

/-- Model of `_list_reports(event)`.  `b64JsonDict` is as in `decode_cursor`;
`scan limit startKey` is the DynamoDB scan call (`none` models a raised
exception, answered with a 500); `reshape` is `_reshape_item` without officer
enrichment or history; `key` reads the `submitted_at` of an item (defaulting to
`""`); `encode_cursor` is `_encode_cursor` on the last evaluated key of the page.
A decoded-but-empty cursor map is falsy in the source and therefore, like an
undecodable one, sends no `ExclusiveStartKey`. -/
def list_reports {α : Type}
    (b64JsonDict : String → Option (List (String × String)))
    (scan : Int → Option (List (String × String)) → Option (ScanPage α))
    (reshape : α → α) (key : α → String)
    (encode_cursor : Option (List (String × String)) → Option String)
    (limitRaw : Option Int) (cursorRaw : Option String) : ListResponse α :=
  let limit := sanitize_limit limitRaw 25 1 100
  let cursor := decode_cursor b64JsonDict cursorRaw
  let startKey : Option (List (String × String)) :=
    match cursor with
    | some c => if c = [] then none else some c
    | none => none
  match scan limit startKey with
  | none => { statusCode := 500, items := [], count := 0, nextCursor := none }
  | some page =>
      let items := sortBySubmittedAtDesc key (page.items.map reshape)
      { statusCode := 200, items := items, count := items.length,
        nextCursor := encode_cursor page.lastEvaluatedKey }

/-! ## Shared lemmas -/

theorem coerce_coordinate_num_mem {q lo hi : ℚ} (h1 : lo ≤ q) (h2 : q ≤ hi) :
    coerce_coordinate (.num q) lo hi = some (roundTo 6 q) := by
  simp only [coerce_coordinate]
  rw [if_neg]
  rintro (h | h) <;> linarith

theorem sanitize_location_none_left {latRaw lonRaw accRaw : RawCoord}
    {capRaw : Option String} (h : coerce_coordinate latRaw (-90) 90 = none) :
    sanitize_location (.dict latRaw lonRaw accRaw capRaw) = none := by
  simp only [sanitize_location]
  rw [h]

theorem sanitize_location_none_right {latRaw lonRaw accRaw : RawCoord}
    {capRaw : Option String} (h : coerce_coordinate lonRaw (-180) 180 = none) :
    sanitize_location (.dict latRaw lonRaw accRaw capRaw) = none := by
  simp only [sanitize_location]
  rw [h]
  rcases hc : coerce_coordinate latRaw (-90) 90 with _ | q <;> rfl

theorem coerce_coordinate_bad_none {v : RawCoord} {lo hi : ℚ}
    (h : v = .absent ∨ v = .nonNumeric ∨ v = .nonFinite ∨
      (∃ q : ℚ, v = .num q ∧ (q < lo ∨ hi < q))) :
    coerce_coordinate v lo hi = none := by
  rcases h with rfl | rfl | rfl | ⟨q, rfl, hq⟩
  · rfl
  · rfl
  · rfl
  · simp only [coerce_coordinate]
    rw [if_pos]
    rcases hq with hq | hq
    · exact Or.inl hq
    · exact Or.inr hq

/-! ## Claim theorems -/

/-- C3: for a raw location whose latitude and longitude are finite numbers in
`[-90,90]` and `[-180,180]`, `_sanitize_location` returns both coordinates
rounded to 6 decimal places (and never a partial location: the result dict
always carries both); when either coordinate is absent, non-numeric,
non-finite, or out of range, the whole location is `None`. -/
theorem C3_sanitize_location_total_or_absent (latRaw lonRaw accRaw : RawCoord)
    (capRaw : Option String) :
    (∀ ql qlon : ℚ, latRaw = .num ql → lonRaw = .num qlon →
      -90 ≤ ql → ql ≤ 90 → -180 ≤ qlon → qlon ≤ 180 →
      sanitize_location (.dict latRaw lonRaw accRaw capRaw) =
        some { latitude := roundTo 6 ql, longitude := roundTo 6 qlon,
               accuracy_m := sanitize_accuracy accRaw,
               captured_at := sanitize_captured_at capRaw })
    ∧ (((latRaw = .absent ∨ latRaw = .nonNumeric ∨ latRaw = .nonFinite ∨
          (∃ q : ℚ, latRaw = .num q ∧ (q < -90 ∨ 90 < q))) ∨
        (lonRaw = .absent ∨ lonRaw = .nonNumeric ∨ lonRaw = .nonFinite ∨
          (∃ q : ℚ, lonRaw = .num q ∧ (q < -180 ∨ 180 < q)))) →
        sanitize_location (.dict latRaw lonRaw accRaw capRaw) = none) := by
  constructor
  · rintro ql qlon rfl rfl h1 h2 h3 h4
    simp only [sanitize_location]
    rw [coerce_coordinate_num_mem h1 h2, coerce_coordinate_num_mem h3 h4]
  · rintro (h | h)
    · exact sanitize_location_none_left (coerce_coordinate_bad_none h)
    · exact sanitize_location_none_right (coerce_coordinate_bad_none h)

/-- Witness for C3: the coordinates `(1.35, 103.8)` are kept (rounded to six
decimals, here exactly themselves), while latitude `90.000001` voids the
whole location. -/
theorem C3_witness :
    sanitize_location (.dict (.num (27/20)) (.num (519/5)) .absent none) =
      some { latitude := roundTo 6 (27/20), longitude := roundTo 6 (519/5),
             accuracy_m := none, captured_at := none } ∧
    sanitize_location (.dict (.num (90000001/1000000)) (.num 0) .absent none) = none := by
  constructor
  · exact (C3_sanitize_location_total_or_absent _ _ _ _).1 (27/20) (519/5) rfl rfl
      (by norm_num) (by norm_num) (by norm_num) (by norm_num)
  · exact (C3_sanitize_location_total_or_absent _ _ _ _).2
      (Or.inl (Or.inr (Or.inr (Or.inr ⟨90000001/1000000, rfl, Or.inr (by norm_num)⟩))))

/-- C5: the history endpoint returns the slice of the reversed (newest-first)
history starting at `offset` with at most `limit` entries, and the next
cursor is `offset + limit` exactly when entries remain beyond the slice;
in particular, with 3 entries, `limit=2, offset=0` yields entries 3 and 2
with cursor 2, and `offset=2, limit=2` yields entry 1 with no cursor. -/
theorem C5_get_history_pagination {α : Type} (history : List α)
    (limit offset : Nat) :
    get_history_slice history limit offset =
      ((history.reverse.drop offset).take limit,
        if offset + limit < history.length then some (offset + limit) else none)
    ∧ get_history_slice [1, 2, 3] 2 0 = ([3, 2], some 2)
    ∧ get_history_slice [1, 2, 3] 2 2 = ([1], none) := by
  refine ⟨?_, by decide, by decide⟩
  simp only [get_history_slice, List.length_reverse]
  by_cases h : offset < history.length
  · simp only [if_pos h, Nat.add_sub_cancel_left]
  · simp only [if_neg h]
    have hlen : history.length ≤ offset := Nat.le_of_not_lt h
    have h1 : history.reverse.drop history.length = [] :=
      List.drop_eq_nil_of_le (by simp)
    have h2 : history.reverse.drop offset = [] :=
      List.drop_eq_nil_of_le (by simp [hlen])
    rw [h1, h2, List.take_nil, List.take_nil]
    have h3 : ¬ history.length + limit < history.length := by omega
    have h4 : ¬ offset + limit < history.length := by omega
    rw [if_neg h3, if_neg h4]

/-- C10: when the `request_id` of the event is absent or whitespace-only, the
Persistor still assembles its report item, with the freshly generated UUID
as the `report_id`. -/
theorem C10_missing_request_id_uses_uuid (dparse : String → Option ℚ)
    (event : PersistEvent) (freshUuid now : String)
    (h : pyStrip (event.request_id.getD "") = "") :
    (persist_item dparse event freshUuid now).report_id = freshUuid := by
  rcases hrid : event.request_id with _ | s
  · simp [persist_item, clean_string, hrid]
  · rw [hrid] at h
    simp only [Option.getD_some] at h
    simp [persist_item, clean_string, hrid, h]

/-- Witness for C10: a whitespace-only `request_id` is replaced by the
fresh UUID. -/
theorem C10_witness :
    (persist_item (fun _ => none)
      { request_id := some "   ", status := none, notes := none,
        content_type := none, filename := none, detections := .other }
      "3f2c6d0a" "2026-01-01T00:00:00Z").report_id = "3f2c6d0a" :=
  C10_missing_request_id_uses_uuid (fun _ => none) _ _ _ (by decide)

/-- C1 counterexample: an event that already carries `status: "APPROVED"` is
persisted with status `APPROVED`, not `PENDING_REVIEW` — the initial status
is not `PENDING_REVIEW` regardless of the content of the submission. -/
theorem C1_counterexample :
    (persist_item (fun _ => none)
      { request_id := none, status := some "APPROVED", notes := none,
        content_type := none, filename := none, detections := .other }
      "3f2c6d0a" "2026-01-01T00:00:00Z").status = "APPROVED"
    ∧ ("APPROVED" : String) ≠ "PENDING_REVIEW" := by
  constructor
  · show (clean_string (some "APPROVED") (some 64)).getD "PENDING_REVIEW" = "APPROVED"
    decide
  · decide

/-- C1 (amended): the persisted status is the status string of the event itself,
stripped and truncated to 64 code points, whenever that yields a nonempty
value; only when the event carries no nonblank status does the report get
the default `PENDING_REVIEW`. -/
theorem C1_status_event_or_default (dparse : String → Option ℚ)
    (event : PersistEvent) (freshUuid now : String) :
    (pyStrip (event.status.getD "") = "" →
      (persist_item dparse event freshUuid now).status = "PENDING_REVIEW")
    ∧ (∀ s : String, event.status = some s → pyStrip s ≠ "" →
      (persist_item dparse event freshUuid now).status = pyTake 64 (pyStrip s)) := by
  constructor
  · intro h
    rcases hst : event.status with _ | s
    · simp [persist_item, clean_string, hst]
    · rw [hst] at h
      simp only [Option.getD_some] at h
      simp [persist_item, clean_string, hst, h]
  · intro s hst h
    simp [persist_item, clean_string, hst, h]

/-- Witness for the amended C1 statement, at a blank status and at a status of
`" approved "` (kept verbatim apart from stripping/truncation). -/
theorem C1_witness :
    (persist_item (fun _ => none)
      { request_id := none, status := some " ", notes := none,
        content_type := none, filename := none, detections := .other }
      "u1" "t1").status = "PENDING_REVIEW"
    ∧ (persist_item (fun _ => none)
      { request_id := none, status := some " approved ", notes := none,
        content_type := none, filename := none, detections := .other }
      "u1" "t1").status = pyTake 64 (pyStrip " approved ") :=
  ⟨(C1_status_event_or_default (fun _ => none) _ "u1" "t1").1 (by decide),
   (C1_status_event_or_default (fun _ => none) _ "u1" "t1").2 " approved " rfl (by decide)⟩

/-- C2 counterexample: a detection whose confidence arrives as the float
`1.5` is stored with confidence `1.5 > 1` — `_prepare_detections` rounds but
never clamps to `[0,1]`. -/
theorem C2_counterexample :
    prepare_detections (fun _ => none)
      (.list [some { class_name := none, class_id := none,
                     confidence := .float (3/2), bbox := none }]) =
      some [{ class_name := none, class_id := none,
              confidence := some (3/2), bbox := none }]
    ∧ ¬ ((3/2 : ℚ) ≤ 1) := by
  have hr : roundTo 4 ((3 : ℚ)/2) = 3/2 := by norm_num [roundTo, round_eq]
  constructor
  · simp [prepare_detections, prepare_detection_entry, safe_decimal, clean_string,
      Detection.emptyEntry, MAX_STORED_DETECTIONS, hr]
  · norm_num

/-- C2 (amended): a detection confidence that arrives as a finite float is
stored rounded to 4-decimal precision, with no clamping to `[0,1]` — the
rounded value is stored even when it lies outside that interval. -/
theorem C2_confidence_rounded_not_clamped (dparse : String → Option ℚ)
    (entry : RawDetection) (q : ℚ) (h : entry.confidence = .float q) :
    (prepare_detection_entry dparse entry).confidence = some (roundTo 4 q) := by
  simp [prepare_detection_entry, safe_decimal, h]

/-- Witness for the amended C2 statement at the float confidence `1/4`. -/
theorem C2_witness :
    (prepare_detection_entry (fun _ => none)
      { class_name := some "vape", class_id := some 0,
        confidence := .float (1/4), bbox := none }).confidence =
      some (roundTo 4 (1/4)) :=
  C2_confidence_rounded_not_clamped (fun _ => none) _ (1/4) rfl

theorem Officer.popUsernameIfSub_name (o : Officer) :
    o.popUsernameIfSub.name = o.name := by
  unfold Officer.popUsernameIfSub
  split <;> rfl

theorem Officer.popUsernameIfSub_email (o : Officer) :
    o.popUsernameIfSub.email = o.email := by
  unfold Officer.popUsernameIfSub
  split <;> rfl

theorem Officer.popUsernameIfSub_sub (o : Officer) :
    o.popUsernameIfSub.sub = o.sub := by
  unfold Officer.popUsernameIfSub
  split <;> rfl

/-- C4 counterexample: with the process cache already holding
`{name: "CachedName", email: "cached@x"}` for username `u` (populated by an
earlier request that supplied neither), a request that supplies
`name: "Alice"` gets it overwritten by the cached value on the cache-hit
path — a caller-supplied field does not keep its value. -/
theorem C4_counterexample :
    (enrich_officer_details true (fun _ => none)
        [("u", { email := some "cached@x", name := some "CachedName",
                 username := none })]
        { email := none, name := some "Alice", sub := some "s",
          username := some "u" }).1.name = some "CachedName"
    ∧ some "CachedName" ≠ some "Alice" := by
  constructor
  · decide
  · decide

/-- C4 (amended): whenever the username of the officer is not already in the
process cache — in particular on every directory-resolution (cache-miss)
path — caller-supplied nonempty `name` and `email` keep their values and
only missing fields are merged in, and `sub` is always preserved; the
cache-hit path, by contrast, applies all cached fields unconditionally and
can overwrite caller-supplied values (see the counterexample), and a
`username` equal to `sub` is dropped on the successful-lookup path. -/
theorem C4_cache_miss_preserves_caller_fields (enabled : Bool)
    (admin_get_user : String → Option CognitoUser)
    (cache : List (String × OfficerUpdates)) (officer : Officer)
    (hmiss : cache.lookup ((pyOr officer.username officer.sub).getD "") = none) :
    (truthy officer.name = true →
      (enrich_officer_details enabled admin_get_user cache officer).1.name
        = officer.name)
    ∧ (truthy officer.email = true →
      (enrich_officer_details enabled admin_get_user cache officer).1.email
        = officer.email)
    ∧ (enrich_officer_details enabled admin_get_user cache officer).1.sub
        = officer.sub := by
  unfold enrich_officer_details
  dsimp only
  split
  · exact ⟨fun _ => rfl, fun _ => rfl, rfl⟩
  · split
    · exact ⟨fun _ => rfl, fun _ => rfl, rfl⟩
    · rw [hmiss]
      dsimp only
      split
      · exact ⟨fun _ => rfl, fun _ => rfl, rfl⟩
      · rename_i resp heq
        split
        · refine ⟨fun h => ?_, fun h => ?_, ?_⟩ <;>
            simp [Officer.popUsernameIfSub_name, Officer.popUsernameIfSub_email,
              Officer.popUsernameIfSub_sub]
        · refine ⟨fun h => ?_, fun h => ?_, ?_⟩
          · have hu : (directory_updates officer resp).name = none := by
              simp [directory_updates, h]
            have hn : (sanitize_updates (directory_updates officer resp)).name = none := by
              simp [sanitize_updates, hu, truthy]
            simp [Officer.popUsernameIfSub_name, Officer.applyUpdates, hn, truthy]
          · have hu : (directory_updates officer resp).email = none := by
              simp [directory_updates, h]
            have he : (sanitize_updates (directory_updates officer resp)).email = none := by
              simp [sanitize_updates, hu, truthy]
            simp [Officer.popUsernameIfSub_email, Officer.applyUpdates, he, truthy]
          · simp [Officer.popUsernameIfSub_sub, Officer.applyUpdates]

/-- Witness for the amended C4 statement: on a cache miss with a directory
lookup that supplies both fields, the caller-supplied name survives and the
caller-supplied `sub` is untouched. -/
theorem C4_witness :
    (enrich_officer_details true
        (fun _ => some { attributes := [("email", "dir@x"), ("name", "DirName")],
                         username := some "u" })
        [] { email := none, name := some "N", sub := some "s",
             username := some "u" }).1.name = some "N"
    ∧ (enrich_officer_details true
        (fun _ => some { attributes := [("email", "dir@x"), ("name", "DirName")],
                         username := some "u" })
        [] { email := none, name := some "N", sub := some "s",
             username := some "u" }).1.sub = some "s" :=
  ⟨(C4_cache_miss_preserves_caller_fields true _ [] _ rfl).1 (by decide),
   (C4_cache_miss_preserves_caller_fields true _ [] _ rfl).2.2⟩

/-- C6: for an image that decodes as JPEG or PNG, `_compress_photo` returns
the re-encoded bytes exactly when they are strictly smaller than
`original_size × 0.95`, and the original bytes/content type otherwise; a
decode failure, an encode failure, or a non-JPEG/PNG format always yields
the original bytes and content type unchanged. -/
theorem C6_compress_photo_threshold
    (save : ImageFormat → Option (List Nat)) (binary : List Nat)
    (content_type : String) (fmt : ImageFormat) :
    (∀ compressed : List Nat, fmt = .jpeg ∨ fmt = .png → binary ≠ [] →
      save fmt = some compressed →
      (((compressed.length : ℚ) < (binary.length : ℚ) * minCompressionRatio →
          compress_photo true (some fmt) save binary content_type =
            (compressed, if fmt = .jpeg then "image/jpeg" else "image/png"))
        ∧ (¬ (compressed.length : ℚ) < (binary.length : ℚ) * minCompressionRatio →
          compress_photo true (some fmt) save binary content_type =
            (binary, content_type))))
    ∧ compress_photo true none save binary content_type = (binary, content_type)
    ∧ (∀ s : String, compress_photo true (some (.other s)) save binary content_type =
        (binary, content_type))
    ∧ (save fmt = none →
        compress_photo true (some fmt) save binary content_type =
          (binary, content_type)) := by
  refine ⟨?_, ?_, ?_, ?_⟩
  · intro compressed hf hb hsave
    have hguard : ¬((!true || decide (binary = [])) = true) := by simp [hb]
    have hfne : ¬(fmt ≠ ImageFormat.jpeg ∧ fmt ≠ ImageFormat.png) := by
      rcases hf with rfl | rfl <;> simp
    simp only [compress_photo]
    rw [if_neg hguard]
    rw [if_neg hfne, hsave]
    dsimp only
    constructor
    · intro hlt
      rw [if_neg (not_le.mpr hlt)]
    · intro hge
      rw [if_pos (le_of_not_lt hge)]
  · simp only [compress_photo]
    split
    · rfl
    · rfl
  · intro s
    simp only [compress_photo]
    split
    · rfl
    · rw [if_pos]
      exact ⟨by simp, by simp⟩
  · intro hnone
    simp only [compress_photo]
    split
    · rfl
    · by_cases hfmt : fmt ≠ ImageFormat.jpeg ∧ fmt ≠ ImageFormat.png
      · rw [if_pos hfmt]
      · rw [if_neg hfmt, hnone]

/-- Witness for C6: a 3-byte JPEG recompressed to 1 byte (below the 0.95
threshold) is accepted, while a recompression to 3 bytes is rejected and the
original pair is kept. -/
theorem C6_witness :
    compress_photo true (some .jpeg) (fun _ => some [7]) [1, 2, 3] "image/jpeg" =
      ([7], "image/jpeg")
    ∧ compress_photo true (some .jpeg) (fun _ => some [7, 8, 9]) [1, 2, 3] "x" =
      ([1, 2, 3], "x") := by
  constructor
  · have h := ((C6_compress_photo_threshold (fun _ => some [7]) [1, 2, 3]
      "image/jpeg" .jpeg).1 [7] (Or.inl rfl) (by decide) rfl).1
      (by norm_num [minCompressionRatio])
    simpa using h
  · exact ((C6_compress_photo_threshold (fun _ => some [7, 8, 9]) [1, 2, 3]
      "x" .jpeg).1 [7, 8, 9] (Or.inl rfl) (by decide) rfl).2
      (by norm_num [minCompressionRatio])

/-- C7 counterexample: with zero detected faces, `_blur_faces` returns the
original input bytes — a PNG input stays PNG, so the redacted bytes are not
always re-encoded as JPEG. -/
theorem C7_counterexample :
    @blur_faces Unit (fun _ => ()) (fun _ => (4, 4)) (fun _ => [])
        (fun p _ => p) (fun _ => []) { format := .png, data := [1, 2, 3] } =
      { format := .png, data := [1, 2, 3] }
    ∧ ImageFormat.png ≠ ImageFormat.jpeg := by
  exact ⟨rfl, by decide⟩

/-- C7 (amended): when the face detector reports at least one face, the
bytes returned by `_blur_faces` are re-encoded as JPEG regardless of the
input format; when it reports zero faces, the original input bytes are
returned completely unchanged (original format included). -/
theorem C7_blur_faces_jpeg_or_original {Pix : Type} (opened : EncodedImage → Pix)
    (size : Pix → Nat × Nat) (detect_faces : EncodedImage → List FaceBox)
    (crop_blur_paste : Pix → Int × Int × Int × Int → Pix)
    (encode_jpeg : Pix → List Nat) (image_bytes : EncodedImage) :
    (detect_faces image_bytes = [] →
      blur_faces opened size detect_faces crop_blur_paste encode_jpeg image_bytes
        = image_bytes)
    ∧ (detect_faces image_bytes ≠ [] →
      (blur_faces opened size detect_faces crop_blur_paste encode_jpeg
        image_bytes).format = .jpeg) := by
  constructor
  · intro h
    simp [blur_faces, h]
  · intro h
    have hne : (detect_faces image_bytes).isEmpty = false := by
      rcases hd : detect_faces image_bytes with _ | ⟨f, fs⟩
      · exact absurd hd h
      · rfl
    simp [blur_faces, hne]

/-- Witness for the amended C7 statement: one detected face forces a JPEG
result on a PNG input, and zero faces return the PNG input unchanged. -/
theorem C7_witness :
    (@blur_faces Unit (fun _ => ()) (fun _ => (4, 4))
        (fun _ => [{ left := 0, top := 0, width := 1, height := 1 }])
        (fun p _ => p) (fun _ => [9]) { format := .png, data := [1] }).format =
      ImageFormat.jpeg
    ∧ @blur_faces Unit (fun _ => ()) (fun _ => (4, 4))
        (fun _ => ([] : List FaceBox)) (fun p _ => p) (fun _ => [9])
        { format := .png, data := [1] } = { format := .png, data := [1] } :=
  ⟨(C7_blur_faces_jpeg_or_original _ _ _ _ _ _).2 (List.cons_ne_nil _ _),
   (C7_blur_faces_jpeg_or_original _ _ _ _ _ _).1 rfl⟩

/-- C8: a `cursor` query parameter that is not valid base64-encoded JSON of
an object is treated exactly as an absent cursor: the request behaves
identically to a cursorless one, and when the table scan succeeds it
answers 200 with the first page of the scan. -/
theorem C8_invalid_cursor_first_page {α : Type}
    (b64JsonDict : String → Option (List (String × String)))
    (scan : Int → Option (List (String × String)) → Option (ScanPage α))
    (reshape : α → α) (key : α → String)
    (encode_cursor : Option (List (String × String)) → Option String)
    (limitRaw : Option Int) (s : String)
    (hbad : b64JsonDict s = none) :
    list_reports b64JsonDict scan reshape key encode_cursor limitRaw (some s)
      = list_reports b64JsonDict scan reshape key encode_cursor limitRaw none
    ∧ (∀ page : ScanPage α, scan (sanitize_limit limitRaw 25 1 100) none = some page →
        (list_reports b64JsonDict scan reshape key encode_cursor limitRaw
          (some s)).statusCode = 200
        ∧ (list_reports b64JsonDict scan reshape key encode_cursor limitRaw
            (some s)).items = sortBySubmittedAtDesc key (page.items.map reshape)) := by
  have hdec : decode_cursor b64JsonDict (some s) = none := by
    by_cases hs : s = ""
    · simp [decode_cursor, hs]
    · simp [decode_cursor, hs, hbad]
  have hdec2 : decode_cursor b64JsonDict none = none := rfl
  constructor
  · simp [list_reports, hdec, hdec2]
  · intro page hp
    simp [list_reports, hdec, hdec2, hp]

/-- Witness for C8: a garbage cursor still produces a 200 response. -/
theorem C8_witness :
    (list_reports (fun _ => none)
      (fun _ _ => some { items := [], lastEvaluatedKey := none })
      id (fun _ : Nat => "") (fun _ => none) none (some "%%%")).statusCode = 200 :=
  ((C8_invalid_cursor_first_page (fun _ => none)
      (fun _ _ => some { items := [], lastEvaluatedKey := none })
      id (fun _ : Nat => "") (fun _ => none) none "%%%" rfl).2
    { items := [], lastEvaluatedKey := none } rfl).1

/-- C9: a `submit_audit` request whose authorizer claims carry no officer
fields at all records the officer as `{"sub": "unknown"}`, and for every
claims object whatsoever the stored officer map is nonempty. -/
theorem C9_audit_officer_nonempty (enabled : Bool)
    (admin_get_user : String → Option CognitoUser)
    (cache : List (String × OfficerUpdates)) :
    submit_audit_officer enabled admin_get_user cache JwtClaims.emptyClaims
      = [("sub", "unknown")]
    ∧ ∀ claims : JwtClaims,
        1 ≤ (submit_audit_officer enabled admin_get_user cache claims).length := by
  constructor
  · have hof : (extract_officer enabled admin_get_user cache JwtClaims.emptyClaims).1
        = { email := none, name := none, sub := none, username := none } := by
      cases enabled <;>
        simp [extract_officer, enrich_officer_details, JwtClaims.emptyClaims,
          pyOr, truthy]
    simp [submit_audit_officer, hof, remove_none_values, truthy]
  · intro claims
    unfold submit_audit_officer
    dsimp only
    split
    · simp
    · rename_i hne
      exact List.length_pos.mpr hne

end VapeWatch
